import Mathlib

/-!
Verification of the adowi2gh migration core (mapper + engine) against its
natural-language specification.  The Go sources in `internal/models`,
`internal/migration/mapper.go` and `internal/migration/engine.go` are shallowly
embedded below: Go maps become association lists (a `nil` map behaves exactly
like an empty one under lookup, so both embed as `[]`), Go `int` IDs and
counters become `Nat`, `time.Time` becomes an abstract `Nat` tick supplied by
the environment, and fallible collaborator calls return `Except String`.
The two external collaborators (ADO source client, GitHub sink client), the
HTML-to-Markdown converter and time-zone formatting are opaque per the spec and
are passed in as function-valued parameters.
-/

namespace Adowi2gh

/-- Embeds `strings.ToLower` (character-wise lowering; the inputs the program
lowers are ASCII).  Defined over the character list so that concrete values
reduce inside the kernel. -/
def strToLower (s : String) : String :=
  String.mk (s.data.map Char.toLower)

/-- Embeds `strings.TrimSpace`: drop whitespace from both ends. -/
def trimSpace (s : String) : String :=
  String.mk (((s.data.dropWhile Char.isWhitespace).reverse.dropWhile
    Char.isWhitespace).reverse)

/-- Embeds `strings.Split` with a one-character separator (the program only
splits on `";"` and `"\\"`). -/
def splitOnChar (s : String) (sep : Char) : List String :=
  (s.data.splitOn sep).map String.mk

/-- First-match association-list lookup; embeds Go map indexing
(`v, exists := m[k]`).  Keys in the configuration maps are unique, so
first-match lookup agrees with Go map semantics. -/
def lookup {α : Type} (m : List (String × α)) (k : String) : Option α :=
  match m with
  | [] => none
  | (k', v) :: rest => if k' = k then some v else lookup rest k

/-- Dynamic field values stored in `WorkItem.Fields` (Go
`map[string]interface{}`).  The program only ever reads string values, numeric
IDs and string-valued identity objects out of the bag, so the variant is
restricted to those shapes. -/
inductive FieldValue where
  | str (s : String)
  | num (n : Nat)
  | obj (fields : List (String × String))
deriving DecidableEq, Repr

/-- `models.User` — an identity reference. -/
structure User where
  id : String
  displayName : String
  email : String
  uniqueName : String
deriving DecidableEq, Repr

/-- `models.WorkItemComment` (fields the core reads). -/
structure WorkItemComment where
  id : Nat
  text : String
  createdBy : User
  createdDate : Nat
deriving DecidableEq, Repr

/-- `models.WorkItem` (fields the mapper and engine read; relations,
attachments and the embedded comment list are unused by the core paths). -/
structure WorkItem where
  id : Nat
  url : String
  rev : Nat
  fields : List (String × FieldValue)
deriving DecidableEq, Repr

/-- Go `m[key].(string)` on the dynamic field bag: present and string-typed. -/
def getStringField (fields : List (String × FieldValue)) (key : String) : Option String :=
  match lookup fields key with
  | some (.str s) => some s
  | _ => none

/-- `getStringFromMap` from `models/workitem.go`. -/
def getStringFromMap (m : List (String × String)) (key : String) : String :=
  match lookup m key with
  | some val => val
  | none => ""

/-- `WorkItem.GetTitle`. -/
def GetTitle (wi : WorkItem) : String :=
  match getStringField wi.fields "System.Title" with
  | some title => title
  | none => ""

/-- `WorkItem.GetDescription`. -/
def GetDescription (wi : WorkItem) : String :=
  match getStringField wi.fields "System.Description" with
  | some desc => desc
  | none => ""

/-- `WorkItem.GetWorkItemType`. -/
def GetWorkItemType (wi : WorkItem) : String :=
  match getStringField wi.fields "System.WorkItemType" with
  | some t => t
  | none => ""

/-- `WorkItem.GetState`. -/
def GetState (wi : WorkItem) : String :=
  match getStringField wi.fields "System.State" with
  | some s => s
  | none => ""

/-- `WorkItem.GetAssignedTo`: the `System.AssignedTo` field must be an
identity object (Go `map[string]interface{}`), read through
`getStringFromMap`. -/
def GetAssignedTo (wi : WorkItem) : Option User :=
  match lookup wi.fields "System.AssignedTo" with
  | some (.obj assignedTo) =>
      some { id := getStringFromMap assignedTo "id"
             displayName := getStringFromMap assignedTo "displayName"
             email := getStringFromMap assignedTo "email"
             uniqueName := getStringFromMap assignedTo "uniqueName" }
  | _ => none

/-- `parseTagString` from `models/workitem.go`: split on `;`, trim each part,
drop empties. -/
def parseTagString (tags : String) : List String :=
  if tags = "" then []
  else ((splitOnChar tags ';').map trimSpace).filter (fun t => t ≠ "")

/-- `WorkItem.GetTags`. -/
def GetTags (wi : WorkItem) : List String :=
  match getStringField wi.fields "System.Tags" with
  | some tags => if tags ≠ "" then parseTagString tags else []
  | none => []

/-- `models.GitHubIssue` (fields the mapper produces; `number`, timestamps and
the embedded comment list are never set by the mapper). -/
structure GitHubIssue where
  title : String
  body : String
  state : String
  labels : List String
  assignees : List String
  milestone : Option Nat := none
  metadata : List (String × FieldValue)
  sourceWIID : Nat
deriving DecidableEq, Repr

/-- `models.GitHubComment`. -/
structure GitHubComment where
  body : String
deriving DecidableEq, Repr

/-- `config.FieldMapping` (association lists embed the YAML-loaded Go maps). -/
structure FieldMapping where
  stateMapping : List (String × String)
  typeMapping : List (String × List String)
  priorityMapping : List (String × List String)
  timeZone : String
  includeSeverityLabel : Bool
  includeAreaPathLabel : Bool
deriving Repr

/-- `migration.Mapper`: field-mapping configuration, the user-identity table,
plus the two opaque collaborators the mapper delegates to — the
HTML-to-Markdown converter (`htmltomarkdown.ConvertString`, which can fail)
and timestamp rendering in the configured time zone
(`t.In(loc).Format(...)`). -/
structure Mapper where
  config : FieldMapping
  userMapping : List (String × String)
  convertHtml : String → Except String String
  formatTime : Nat → String

/-- `Mapper.cleanHtmlContent`: empty input stays empty; a converter failure is
logged and yields the empty string; otherwise the converted text is
whitespace-trimmed. -/
def cleanHtmlContent (m : Mapper) (content : String) : String :=
  if content = "" then ""
  else
    match m.convertHtml content with
    | .error _ => ""
    | .ok converted => trimSpace converted

/-- `Mapper.mapDescription`: imported-from banner, converted description, then
optional Acceptance Criteria and Reproduction Steps sections. -/
def mapDescription (m : Mapper) (workItem : WorkItem) : String :=
  let importedDescription :=
    "> Issue imported from Azure DevOps [#" ++ toString workItem.id ++ "](" ++ workItem.url ++ ")"
  let description := GetDescription workItem
  let description := importedDescription ++ "\n\n" ++ cleanHtmlContent m description
  let description :=
    match getStringField workItem.fields "Microsoft.VSTS.Common.AcceptanceCriteria" with
    | some acceptanceCriteria =>
        if acceptanceCriteria ≠ "" then
          description ++ "\n\n## Acceptance Criteria\n" ++ cleanHtmlContent m acceptanceCriteria
        else description
    | none => description
  match getStringField workItem.fields "Microsoft.VSTS.TCM.ReproSteps" with
  | some repro =>
      if repro ≠ "" then
        description ++ "\n\n## Reproduction Steps\n" ++ cleanHtmlContent m repro
      else description
  | none => description

/-- `Mapper.mapState`: exact lookup in the configured state table, otherwise a
case-insensitive built-in classification with a default of `"open"`. -/
def mapState (m : Mapper) (adoState : String) : String :=
  match lookup m.config.stateMapping adoState with
  | some githubState => githubState
  | none =>
    let l := strToLower adoState
    if l = "new" ∨ l = "active" ∨ l = "approved" ∨ l = "committed" ∨
       l = "in progress" ∨ l = "resolved" then "open"
    else if l = "done" ∨ l = "closed" ∨ l = "removed" then "closed"
    else "open"

/-- `Mapper.deduplicateLabels`, with the Go `seen` map made explicit as the
list of labels already emitted. -/
def dedupSeen (seen : List String) : List String → List String
  | [] => []
  | label :: rest =>
      if label ≠ "" ∧ label ∉ seen then label :: dedupSeen (label :: seen) rest
      else dedupSeen seen rest

/-- `Mapper.deduplicateLabels`: drop empty strings and duplicates, keeping the
first occurrence of each label. -/
def deduplicateLabels (labels : List String) : List String :=
  dedupSeen [] labels

/-- `Mapper.mapLabels`: accumulate type labels, priority labels, the severity
label, the area label and tag labels in that order, then deduplicate. -/
def mapLabels (m : Mapper) (workItem : WorkItem) : List String :=
  let labels : List String := []
  let workItemType := strToLower (GetWorkItemType workItem)
  let labels :=
    match lookup m.config.typeMapping workItemType with
    | some typeLabels => labels ++ typeLabels
    | none => labels
  let labels :=
    match getStringField workItem.fields "Microsoft.VSTS.Common.Priority" with
    | some priority =>
        match lookup m.config.priorityMapping priority with
        | some priorityLabels => labels ++ priorityLabels
        | none => labels
    | none => labels
  let labels :=
    match getStringField workItem.fields "Microsoft.VSTS.Common.Severity" with
    | some severity =>
        if m.config.includeSeverityLabel then labels ++ ["severity:" ++ strToLower severity]
        else labels
    | none => labels
  let labels :=
    match getStringField workItem.fields "System.AreaPath" with
    | some areaPath =>
        if m.config.includeAreaPathLabel then
          let pathParts := splitOnChar areaPath '\\'
          if pathParts.length > 1 then
            labels ++ ["area:" ++ strToLower (pathParts.getLastD "")]
          else labels
        else labels
    | none => labels
  let labels :=
    labels ++ ((GetTags workItem).filter (fun tag => tag ≠ "")).map
      (fun tag => strToLower (trimSpace tag))
  deduplicateLabels labels

/-- The candidate loop inside `Mapper.mapAssignees`: the first candidate found
in the user table yields a singleton assignee list and ends the loop. -/
def tryUserCandidates (userMapping : List (String × String)) : List String → List String
  | [] => []
  | candidate :: rest =>
      match lookup userMapping candidate with
      | some githubUser => [githubUser]
      | none => tryUserCandidates userMapping rest

/-- `Mapper.mapAssignees`: try the lower-cased unique name, email and display
name against the configured user table; the first hit yields a singleton,
otherwise the assignee list is empty. -/
def mapAssignees (m : Mapper) (workItem : WorkItem) : List String :=
  match GetAssignedTo workItem with
  | none => []
  | some assignedTo =>
      tryUserCandidates m.userMapping
        [strToLower assignedTo.uniqueName, strToLower assignedTo.email,
         strToLower assignedTo.displayName]

/-- `Mapper.MapWorkItemToIssue`.  The Go signature returns an `error` that is
always `nil` (no path of the function body fails), so the embedding returns
the issue directly. -/
def MapWorkItemToIssue (m : Mapper) (workItem : WorkItem) : GitHubIssue :=
  { title := GetTitle workItem
    body := mapDescription m workItem
    state := mapState m (GetState workItem)
    labels := mapLabels m workItem
    assignees := mapAssignees m workItem
    metadata := [("original_id", .num workItem.id),
                 ("original_type", .str (GetWorkItemType workItem)),
                 ("original_url", .str workItem.url)]
    sourceWIID := workItem.id }

/-- `Mapper.MapComments`: convert each comment body and prepend an attribution
line when the author display name is non-empty.  Time-zone resolution and
formatting are folded into the opaque `formatTime`. -/
def MapComments (m : Mapper) (workItemComments : List WorkItemComment) : List GitHubComment :=
  workItemComments.map (fun comment =>
    let body := cleanHtmlContent m comment.text
    let commentTime := m.formatTime comment.createdDate
    if comment.createdBy.displayName ≠ "" then
      { body := "*Comment by " ++ comment.createdBy.displayName ++ " on " ++
                commentTime ++ ":*\n\n" ++ body }
    else { body := body })

/-! ## Migration engine (`internal/migration/engine.go`) -/

/-- `models.MigrationMapping`.  `recordMapping` never sets the work-item-type
or issue-URL fields, so they keep their zero values. -/
structure MigrationMapping where
  adoWorkItemID : Nat
  adoWorkItemType : String := ""
  gitHubIssueID : Nat
  gitHubIssueURL : String := ""
  migratedAt : Nat
  status : String
  errorMessage : String
deriving DecidableEq, Repr

/-- `models.MigrationReport`. -/
structure MigrationReport where
  startTime : Nat
  endTime : Option Nat := none
  totalWorkItems : Nat := 0
  successfulCount : Nat := 0
  failedCount : Nat := 0
  skippedCount : Nat := 0
  mappings : List MigrationMapping := []
  errors : List String := []
deriving DecidableEq, Repr

/-- `migration.MigrationCheckpoint`. -/
structure MigrationCheckpoint where
  lastProcessedID : Nat := 0
  processedItems : List Nat := []
  failedItems : List Nat := []
  mappings : List MigrationMapping := []
  startTime : Nat
  lastUpdate : Nat := 0
deriving DecidableEq, Repr

/-- The engine-owned mutable progress state: the report and the checkpoint. -/
structure EngineState where
  report : MigrationReport
  checkpoint : MigrationCheckpoint
deriving DecidableEq, Repr

/-- `config.MigrationConfig` (the fields the engine consults). -/
structure MigrationConfig where
  batchSize : Int
  dryRun : Bool
  includeComments : Bool
  resumeFromCheckpoint : Bool
deriving Repr

/-- One observable collaborator interaction of a run: remote calls to the ADO
source and GitHub sink clients, plus the per-batch checkpoint persistence. -/
inductive Event where
  | search (workItemID : Nat)
  | create (issue : GitHubIssue)
  | getComments (workItemID : Nat)
  | createComment (issueNumber : Nat) (comment : GitHubComment)
  | updateState (issueNumber : Nat) (state : String)
  | validateLabels (labels : List String)
  | saveCheckpoint
deriving DecidableEq, Repr

/-- The collaborator environment of one run: deterministic behaviours for the
source and sink clients (`Except` for fallible calls), a checkpoint-file load
result, and the clock.  `searchIssues` returns the numbers of the existing
issues found; `createIssue` returns the created issue number. -/
structure Env where
  testSourceConnection : Except String Unit
  testSinkConnection : Except String Unit
  loadCheckpoint : Except String MigrationCheckpoint
  fetchItems : Except String (List WorkItem)
  searchIssues : Nat → Except String (List Nat)
  createIssue : GitHubIssue → Except String Nat
  getComments : Nat → Except String (List WorkItemComment)
  createComment : Nat → GitHubComment → Except String Unit
  updateIssueState : Nat → String → Except String Unit
  validateLabels : List String → Except String Unit
  now : Nat

/-- The state `NewEngine` starts from: zero counters, empty lists, fresh
timestamps. -/
def initialState (now : Nat) : EngineState :=
  { report := { startTime := now }
    checkpoint := { startTime := now } }

/-- `Engine.isAlreadyProcessed`: linear membership scan of the checkpoint's
processed-ID list. -/
def isAlreadyProcessed (cp : MigrationCheckpoint) (workItemID : Nat) : Bool :=
  cp.processedItems.contains workItemID

/-- `Engine.recordMapping`: append one mapping to both the report and the
checkpoint. -/
def recordMapping (st : EngineState) (now : Nat) (workItemID issueNumber : Nat)
    (status errorMsg : String) : EngineState :=
  let mapping : MigrationMapping :=
    { adoWorkItemID := workItemID
      gitHubIssueID := issueNumber
      migratedAt := now
      status := status
      errorMessage := errorMsg }
  { st with
    report := { st.report with mappings := st.report.mappings ++ [mapping] }
    checkpoint := { st.checkpoint with mappings := st.checkpoint.mappings ++ [mapping] } }

/-- `Engine.recordSuccess`. -/
def recordSuccess (st : EngineState) (now : Nat) (workItemID issueNumber : Nat) : EngineState :=
  let st :=
    { st with
      report := { st.report with successfulCount := st.report.successfulCount + 1 }
      checkpoint := { st.checkpoint with
                      processedItems := st.checkpoint.processedItems ++ [workItemID] } }
  recordMapping st now workItemID issueNumber "success" ""

/-- `Engine.recordFailure`. -/
def recordFailure (st : EngineState) (now : Nat) (workItemID : Nat) (errorMsg : String) :
    EngineState :=
  let st :=
    { st with
      report := { st.report with
                  failedCount := st.report.failedCount + 1
                  errors := st.report.errors ++
                    ["Work Item " ++ toString workItemID ++ ": " ++ errorMsg] }
      checkpoint := { st.checkpoint with
                      failedItems := st.checkpoint.failedItems ++ [workItemID] } }
  recordMapping st now workItemID 0 "failed" errorMsg

/-- The comment-creation loop inside `Engine.processComments`: create each
mapped comment in order, stopping at the first sink failure. -/
def createCommentsLoop (env : Env) (issueNumber : Nat) :
    List GitHubComment → List Event × Except String Unit
  | [] => ([], .ok ())
  | comment :: rest =>
      match env.createComment issueNumber comment with
      | .error e => ([.createComment issueNumber comment],
                     .error ("failed to create comment: " ++ e))
      | .ok _ =>
          let r := createCommentsLoop env issueNumber rest
          (.createComment issueNumber comment :: r.1, r.2)

/-- `Engine.processComments`: fetch the source comments, and if any exist map
them and create each on the target issue. -/
def processComments (env : Env) (m : Mapper) (workItem : WorkItem) (issueNumber : Nat) :
    List Event × Except String Unit :=
  match env.getComments workItem.id with
  | .error e => ([.getComments workItem.id],
                 .error ("failed to get work item comments: " ++ e))
  | .ok comments =>
      if comments.length = 0 then ([.getComments workItem.id], .ok ())
      else
        let r := createCommentsLoop env issueNumber (MapComments m comments)
        (.getComments workItem.id :: r.1, r.2)

/-- `Engine.processWorkItem`: the per-item state machine of a live run.
Returns the new engine state, the collaborator calls made, and the Go return
error.  The mapper step cannot fail (see `MapWorkItemToIssue`), so its Go
error branch is dead code; comment-migration and issue-close failures are only
warning-logged and do not affect the state or the returned error. -/
def processWorkItem (env : Env) (m : Mapper) (cfg : MigrationConfig)
    (st : EngineState) (workItem : WorkItem) :
    EngineState × List Event × Except String Unit :=
  if isAlreadyProcessed st.checkpoint workItem.id then
    ({ st with report := { st.report with skippedCount := st.report.skippedCount + 1 } },
     [], .ok ())
  else
    match env.searchIssues workItem.id with
    | .error e => (st, [.search workItem.id],
                   .error ("failed to search for existing issues: " ++ e))
    | .ok existingIssues =>
      if existingIssues.length > 0 then
        let st := { st with
                    report := { st.report with skippedCount := st.report.skippedCount + 1 } }
        let st := recordMapping st env.now workItem.id (existingIssues.headD 0)
                    "skipped" "Issue already exists"
        (st, [.search workItem.id], .ok ())
      else
        let issue := MapWorkItemToIssue m workItem
        match env.createIssue issue with
        | .error e => (st, [.search workItem.id, .create issue],
                       .error ("failed to create GitHub issue: " ++ e))
        | .ok issueNumber =>
            let commentEvents :=
              if cfg.includeComments then (processComments env m workItem issueNumber).1
              else []
            let closeEvents :=
              if issue.state = "closed" then [Event.updateState issueNumber "closed"]
              else []
            let st := recordSuccess st env.now workItem.id issueNumber
            let st := { st with
                        checkpoint := { st.checkpoint with
                                        lastProcessedID := workItem.id
                                        lastUpdate := env.now } }
            (st, .search workItem.id :: .create issue :: (commentEvents ++ closeEvents),
             .ok ())

/-- The body of the `processBatch` loop for one item: run `processWorkItem`
and, when it returns an error, record the failure. -/
def processOneItem (env : Env) (m : Mapper) (cfg : MigrationConfig)
    (st : EngineState) (workItem : WorkItem) : EngineState × List Event :=
  match processWorkItem env m cfg st workItem with
  | (st', evs, .ok _) => (st', evs)
  | (st', evs, .error e) => (recordFailure st' env.now workItem.id e, evs)

/-- `Engine.processBatch`: process each item of the batch in order; a failed
item is recorded and the loop continues (the Go function always returns
`nil`). -/
def processBatch (env : Env) (m : Mapper) (cfg : MigrationConfig)
    (st : EngineState) : List WorkItem → EngineState × List Event
  | [] => (st, [])
  | workItem :: rest =>
      let r1 := processOneItem env m cfg st workItem
      let r2 := processBatch env m cfg r1.1 rest
      (r2.1, r1.2 ++ r2.2)

/-- The effective batch size of `performMigration`: the configured value, or
10 when the configured value is non-positive. -/
def effBatchSize (cfg : MigrationConfig) : Nat :=
  if cfg.batchSize ≤ 0 then 10 else cfg.batchSize.toNat

theorem effBatchSize_pos (cfg : MigrationConfig) : 0 < effBatchSize cfg := by
  unfold effBatchSize
  split
  · decide
  · omega

/-- The batch loop of `Engine.performMigration`: take the next `bs` items,
process them, persist the checkpoint, and continue with the remainder.  The
inter-batch sleep has no observable state effect and is not modelled. -/
def processBatches (env : Env) (m : Mapper) (cfg : MigrationConfig) (bs : Nat)
    (hbs : 0 < bs) (st : EngineState) (items : List WorkItem) : EngineState × List Event :=
  if h : items = [] then (st, [])
  else
    let r1 := processBatch env m cfg st (items.take bs)
    let r2 := processBatches env m cfg bs hbs r1.1 (items.drop bs)
    (r2.1, r1.2 ++ [Event.saveCheckpoint] ++ r2.2)
termination_by items.length
decreasing_by
  simp only [List.length_drop]
  have : 0 < items.length := List.length_pos.mpr h
  omega

/-- `Engine.performMigration`: run the batch loop and stamp the report's end
time. -/
def performMigration (env : Env) (m : Mapper) (cfg : MigrationConfig)
    (st : EngineState) (items : List WorkItem) : EngineState × List Event :=
  let r := processBatches env m cfg (effBatchSize cfg) (effBatchSize_pos cfg) st items
  ({ r.1 with report := { r.1.report with endTime := some env.now } }, r.2)

/-- `Engine.performDryRun`: map each item and validate its labels; a
validation failure counts the item as failed, otherwise it counts as
successful.  (The mapper's error branch is dead code, as in
`processWorkItem`.)  The checkpoint is never touched. -/
def performDryRun (env : Env) (m : Mapper) (st : EngineState) :
    List WorkItem → EngineState × List Event
  | [] => ({ st with report := { st.report with endTime := some env.now } }, [])
  | workItem :: rest =>
      let issue := MapWorkItemToIssue m workItem
      let st' :=
        match env.validateLabels issue.labels with
        | .error _ =>
            { st with report := { st.report with failedCount := st.report.failedCount + 1 } }
        | .ok _ =>
            { st with report := { st.report with
                                  successfulCount := st.report.successfulCount + 1 } }
      let r := performDryRun env m st' rest
      (r.1, .validateLabels issue.labels :: r.2)

/-- `Engine.testConnections`. -/
def testConnections (env : Env) : Except String Unit :=
  match env.testSourceConnection with
  | .error e => .error ("azure devops connection failed: " ++ e)
  | .ok _ =>
    match env.testSinkConnection with
    | .error e => .error ("GitHub connection failed: " ++ e)
    | .ok _ => .ok ()

/-- The state `Run` starts processing from: the fresh `NewEngine` state,
overlaid with the loaded checkpoint when resume is requested and the load
succeeds (a load failure only warns). -/
def startState (env : Env) (cfg : MigrationConfig) : EngineState :=
  let st := initialState env.now
  if cfg.resumeFromCheckpoint then
    match env.loadCheckpoint with
    | .ok cp => { st with checkpoint := cp }
    | .error _ => st
  else st

/-- `Engine.Run`: optionally load the checkpoint, test both connections,
fetch the work items, then perform either the dry run or the live migration.
The `Except` error cases are the fatal aborts. -/
def run (env : Env) (m : Mapper) (cfg : MigrationConfig) :
    Except String (EngineState × List Event) :=
  match testConnections env with
  | .error e => .error ("connection test failed: " ++ e)
  | .ok _ =>
    match env.fetchItems with
    | .error e => .error ("failed to retrieve work items: " ++ e)
    | .ok workItems =>
      let st := { startState env cfg with
                  report := { (startState env cfg).report with
                              totalWorkItems := workItems.length } }
      if cfg.dryRun then .ok (performDryRun env m st workItems)
      else .ok (performMigration env m cfg st workItems)

/-! ## Helper lemmas about label deduplication -/

theorem mem_dedupSeen (ls : List String) : ∀ (seen : List String) (x : String),
    x ∈ dedupSeen seen ls ↔ x ≠ "" ∧ x ∉ seen ∧ x ∈ ls := by
  induction ls with
  | nil => intro seen x; simp [dedupSeen]
  | cons label rest ih =>
    intro seen x
    simp only [dedupSeen]
    split
    · rename_i hcond
      simp only [List.mem_cons, ih]
      constructor
      · rintro (rfl | ⟨hx1, hx2, hx3⟩)
        · exact ⟨hcond.1, hcond.2, Or.inl rfl⟩
        · refine ⟨hx1, fun hmem => hx2 ?_, Or.inr hx3⟩
          simp [hmem]
      · rintro ⟨hx1, hx2, rfl | hx3⟩
        · exact Or.inl rfl
        · by_cases hxl : x = label
          · exact Or.inl hxl
          · exact Or.inr ⟨hx1, by simp [List.mem_cons, hxl, hx2], hx3⟩
    · rename_i hcond
      rw [ih]
      simp only [List.mem_cons]
      constructor
      · rintro ⟨hx1, hx2, hx3⟩
        exact ⟨hx1, hx2, Or.inr hx3⟩
      · rintro ⟨hx1, hx2, rfl | hx3⟩
        · exact absurd ⟨hx1, hx2⟩ hcond
        · exact ⟨hx1, hx2, hx3⟩

theorem nodup_dedupSeen (ls : List String) : ∀ seen : List String, (dedupSeen seen ls).Nodup := by
  induction ls with
  | nil => intro _; simp [dedupSeen]
  | cons label rest ih =>
    intro seen
    simp only [dedupSeen]
    split
    · refine List.nodup_cons.mpr ⟨?_, ih _⟩
      intro hmem
      rcases (mem_dedupSeen rest _ _).mp hmem with ⟨_, hns, _⟩
      exact hns (List.mem_cons_self _ _)
    · exact ih _

theorem sublist_dedupSeen (ls : List String) :
    ∀ seen : List String, List.Sublist (dedupSeen seen ls) ls := by
  induction ls with
  | nil => intro _; simp [dedupSeen]
  | cons label rest ih =>
    intro seen
    simp only [dedupSeen]
    split
    · exact List.Sublist.cons₂ _ (ih _)
    · exact List.Sublist.cons _ (ih _)

theorem mem_deduplicateLabels (ls : List String) (x : String) :
    x ∈ deduplicateLabels ls ↔ x ≠ "" ∧ x ∈ ls := by
  rw [deduplicateLabels, mem_dedupSeen]
  simp

theorem nodup_deduplicateLabels (ls : List String) : (deduplicateLabels ls).Nodup :=
  nodup_dedupSeen ls []

theorem sublist_deduplicateLabels (ls : List String) :
    List.Sublist (deduplicateLabels ls) ls :=
  sublist_dedupSeen ls []

/-- Every tag returned by `parseTagString` is non-empty. -/
theorem parseTagString_ne_empty (s : String) : ∀ t ∈ parseTagString s, t ≠ "" := by
  intro t ht
  unfold parseTagString at ht
  split at ht
  · simp at ht
  · simpa using (List.mem_filter.mp ht).2

theorem getTags_ne_empty (wi : WorkItem) : ∀ t ∈ GetTags wi, t ≠ "" := by
  intro t ht
  unfold GetTags at ht
  split at ht
  · split at ht
    · exact parseTagString_ne_empty _ t ht
    · simp at ht
  · simp at ht

/-! ## Specification-side definitions

These restate, in the spec's own words, the behaviours the refinement claims
compare against the code: the built-in state classification, the accumulated
label order, and the assignee precedence chain. -/

/-- Spec: "a fixed set of in-flight state names → open; a fixed set of
terminal names → closed; any other value → open", compared
case-insensitively. -/
def builtinStateClassification (adoState : String) : String :=
  if strToLower adoState ∈ ["new", "active", "approved", "committed", "in progress", "resolved"]
  then "open"
  else if strToLower adoState ∈ ["done", "closed", "removed"] then "closed"
  else "open"

/-- Spec: labels from the type table keyed by the lower-cased work-item
type. -/
def typeLabelsSpec (m : Mapper) (wi : WorkItem) : List String :=
  (lookup m.config.typeMapping (strToLower (GetWorkItemType wi))).getD []

/-- Spec: labels from the priority table keyed by the raw priority field
value. -/
def priorityLabelsSpec (m : Mapper) (wi : WorkItem) : List String :=
  match getStringField wi.fields "Microsoft.VSTS.Common.Priority" with
  | some priority => (lookup m.config.priorityMapping priority).getD []
  | none => []

/-- Spec: one `severity:<lowercased value>` label when the severity field is
present and the flag is set. -/
def severityLabelSpec (m : Mapper) (wi : WorkItem) : List String :=
  match getStringField wi.fields "Microsoft.VSTS.Common.Severity" with
  | some severity =>
      if m.config.includeSeverityLabel then ["severity:" ++ strToLower severity] else []
  | none => []

/-- Spec: one `area:<lowercased last path segment>` label when the area path
is present, contains a separator, and the flag is set. -/
def areaLabelSpec (m : Mapper) (wi : WorkItem) : List String :=
  match getStringField wi.fields "System.AreaPath" with
  | some areaPath =>
      if m.config.includeAreaPathLabel ∧ (splitOnChar areaPath '\\').length > 1 then
        ["area:" ++ strToLower ((splitOnChar areaPath '\\').getLastD "")]
      else []
  | none => []

/-- Spec: every tag from the semicolon-delimited tag field, lower-cased and
trimmed. -/
def tagLabelsSpec (wi : WorkItem) : List String :=
  (GetTags wi).map (fun tag => strToLower (trimSpace tag))

/-- Spec: the label sequence accumulated in the fixed order type, priority,
severity, area, tags. -/
def accumulatedLabelsSpec (m : Mapper) (wi : WorkItem) : List String :=
  typeLabelsSpec m wi ++ priorityLabelsSpec m wi ++ severityLabelSpec m wi ++
    areaLabelSpec m wi ++ tagLabelsSpec wi

/-- Spec: assignee precedence unique-login → email → display name, each
lower-cased, first table hit wins, no fallback. -/
def assigneesSpec (userMapping : List (String × String)) (assignedTo : User) : List String :=
  match lookup userMapping (strToLower assignedTo.uniqueName) with
  | some githubUser => [githubUser]
  | none =>
    match lookup userMapping (strToLower assignedTo.email) with
    | some githubUser => [githubUser]
    | none =>
      match lookup userMapping (strToLower assignedTo.displayName) with
      | some githubUser => [githubUser]
      | none => []

/-- The label accumulation inside `mapLabels` matches the spec's fixed-order
concatenation. -/
theorem mapLabels_eq_dedup_accumulated (m : Mapper) (wi : WorkItem) :
    mapLabels m wi = deduplicateLabels (accumulatedLabelsSpec m wi) := by
  have htags : (GetTags wi).filter (fun tag => tag ≠ "") = GetTags wi := by
    rw [List.filter_eq_self]
    intro a ha
    simpa using getTags_ne_empty wi a ha
  unfold mapLabels accumulatedLabelsSpec typeLabelsSpec priorityLabelsSpec
    severityLabelSpec areaLabelSpec tagLabelsSpec
  rw [htags]
  congr 1
  cases h1 : lookup m.config.typeMapping (strToLower (GetWorkItemType wi)) <;>
    cases h2 : getStringField wi.fields "Microsoft.VSTS.Common.Priority" <;>
    cases h3 : getStringField wi.fields "Microsoft.VSTS.Common.Severity" <;>
    cases h4 : getStringField wi.fields "System.AreaPath" <;>
    simp only [h1, h2, h3, h4] <;>
    (repeat' split) <;>
    simp_all [List.append_assoc]

/-! ## Concrete fixtures used by the witnesses -/

/-- A mapper with empty configuration tables (a `nil` Go map behaves as an
empty lookup table) and an identity HTML converter. -/
def mEmpty : Mapper :=
  { config := { stateMapping := []
                typeMapping := []
                priorityMapping := []
                timeZone := "UTC"
                includeSeverityLabel := false
                includeAreaPathLabel := false }
    userMapping := []
    convertHtml := fun s => .ok s
    formatTime := fun _ => "1970-01-01 00:00:00 UTC" }

/-- A mapper whose state table maps the exact string `"Custom"`. -/
def mStateTable : Mapper :=
  { mEmpty with config := { mEmpty.config with stateMapping := [("Custom", "closed")] } }

/-- A mapper whose user table has a single entry keyed by the lower-cased
email `"y"`. -/
def mEmailOnly : Mapper :=
  { mEmpty with userMapping := [("y", "gh-from-email")] }

/-- A work item assigned to login `X`, email `Y`, display name `Z`. -/
def wiAssigned : WorkItem :=
  { id := 7, url := "http://ado/7", rev := 1
    fields := [("System.AssignedTo",
                .obj [("id", "id-1"), ("displayName", "Z"), ("email", "Y"),
                      ("uniqueName", "X")])] }

/-- The identity `GetAssignedTo` extracts from `wiAssigned`. -/
def uAssigned : User :=
  { id := "id-1", displayName := "Z", email := "Y", uniqueName := "X" }

/-- A work item with a duplicated tag list and a severity field. -/
def wiTagged : WorkItem :=
  { id := 9, url := "http://ado/9", rev := 1
    fields := [("System.WorkItemType", .str "Bug"),
               ("System.State", .str "Active"),
               ("System.Tags", .str "Frontend; urgent; frontend")] }

/-! ## Claims about the field mapper -/

/-- C6: state mapping returns the configured table's value on an exact
(case-sensitive) hit, and otherwise falls back to the built-in
case-insensitive classification with default `open`; in particular
`mapState "New" = "open"`, `mapState "done" = "closed"` and
`mapState "Unknown" = "open"` with an empty table. -/
theorem mapState_table_then_builtin (m : Mapper) (s g : String) :
    (lookup m.config.stateMapping s = some g → mapState m s = g) ∧
    (lookup m.config.stateMapping s = none →
      mapState m s = builtinStateClassification s) ∧
    mapState mEmpty "New" = "open" ∧
    mapState mEmpty "done" = "closed" ∧
    mapState mEmpty "Unknown" = "open" := by
  refine ⟨fun h => by simp [mapState, h], fun h => ?_, by decide, by decide, by decide⟩
  simp [mapState, builtinStateClassification, h, List.mem_cons]

/-- Witness for C6: a table hit beats the built-in classification
(`"Custom"` would classify as `open` but the table sends it to `closed`),
and a table miss falls back to the classification. -/
theorem mapState_table_then_builtin_witness :
    mapState mStateTable "Custom" = "closed" ∧
    mapState mStateTable "Active" = builtinStateClassification "Active" :=
  ⟨(mapState_table_then_builtin mStateTable "Custom" "closed").1 rfl,
   (mapState_table_then_builtin mStateTable "Active" "closed").2.1 rfl⟩

/-- C5: with a non-absent assigned-to identity, assignees are resolved only
through the configured identity table in the order lower-cased unique login,
lower-cased email, lower-cased display name; the first hit yields a
one-element list and a complete miss yields the empty list. -/
theorem mapAssignees_table_only (m : Mapper) (wi : WorkItem) (u : User)
    (h : GetAssignedTo wi = some u) :
    mapAssignees m wi = assigneesSpec m.userMapping u ∧
    (mapAssignees m wi).length ≤ 1 := by
  have heq : mapAssignees m wi = assigneesSpec m.userMapping u := by
    unfold mapAssignees
    rw [h]
    cases h1 : lookup m.userMapping (strToLower u.uniqueName) <;>
      cases h2 : lookup m.userMapping (strToLower u.email) <;>
      cases h3 : lookup m.userMapping (strToLower u.displayName) <;>
      simp [tryUserCandidates, assigneesSpec, h1, h2, h3]
  refine ⟨heq, ?_⟩
  rw [heq]
  unfold assigneesSpec
  repeat' split
  all_goals simp

/-- Witness for C5 (the spec's precedence scenario): login `X` misses, the
email entry `y` is used, and the result is the one-element list from the
email entry — no fallback derived from the email address. -/
theorem mapAssignees_table_only_witness :
    mapAssignees mEmailOnly wiAssigned = assigneesSpec mEmailOnly.userMapping uAssigned ∧
    mapAssignees mEmailOnly wiAssigned = ["gh-from-email"] :=
  ⟨(mapAssignees_table_only mEmailOnly wiAssigned uAssigned (by decide)).1, by decide⟩

/-- C7: the mapper's label list is the fixed-order accumulated sequence
deduplicated keeping first occurrences; it never contains duplicates or empty
strings, deduplication preserves the input order, and
`[bug, urgent, bug, frontend, urgent]` deduplicates to
`[bug, urgent, frontend]`. -/
theorem mapLabels_nodup_accumulated (m : Mapper) (wi : WorkItem) :
    mapLabels m wi = deduplicateLabels (accumulatedLabelsSpec m wi) ∧
    (mapLabels m wi).Nodup ∧
    "" ∉ mapLabels m wi ∧
    (∀ ls : List String, List.Sublist (deduplicateLabels ls) ls) ∧
    (∀ (ls : List String) (x : String),
      x ∈ deduplicateLabels ls ↔ x ≠ "" ∧ x ∈ ls) ∧
    deduplicateLabels ["bug", "urgent", "bug", "frontend", "urgent"] =
      ["bug", "urgent", "frontend"] := by
  refine ⟨mapLabels_eq_dedup_accumulated m wi, ?_, ?_,
    sublist_deduplicateLabels, mem_deduplicateLabels, by decide⟩
  · rw [mapLabels_eq_dedup_accumulated]
    exact nodup_deduplicateLabels _
  · rw [mapLabels_eq_dedup_accumulated]
    intro hmem
    exact ((mem_deduplicateLabels _ _).mp hmem).1 rfl

/-- Witness for C7: a work item whose tag list repeats `frontend` yields each
label once, in first-seen order. -/
theorem mapLabels_nodup_accumulated_witness :
    mapLabels mEmpty wiTagged = deduplicateLabels (accumulatedLabelsSpec mEmpty wiTagged) ∧
    mapLabels mEmpty wiTagged = ["frontend", "urgent"] :=
  ⟨(mapLabels_nodup_accumulated mEmpty wiTagged).1, by decide⟩

/-! ## Engine lemmas -/

/-- The processed-outcome total of a report. -/
def sumCounts (st : EngineState) : Nat :=
  st.report.successfulCount + st.report.failedCount + st.report.skippedCount

/-- Processing one item of a batch increments exactly one of the three
outcome counters and leaves the fetched total untouched. -/
theorem processOneItem_sum (env : Env) (m : Mapper) (cfg : MigrationConfig)
    (st : EngineState) (wi : WorkItem) :
    sumCounts (processOneItem env m cfg st wi).1 = sumCounts st + 1 ∧
    (processOneItem env m cfg st wi).1.report.totalWorkItems = st.report.totalWorkItems := by
  by_cases h1 : isAlreadyProcessed st.checkpoint wi.id
  · simp [processOneItem, processWorkItem, h1, sumCounts]
    omega
  · cases h2 : env.searchIssues wi.id with
    | error e =>
        simp [processOneItem, processWorkItem, h1, h2, recordFailure, recordMapping, sumCounts]
        omega
    | ok existing =>
        cases existing with
        | cons n rest =>
            simp [processOneItem, processWorkItem, h1, h2, recordMapping, sumCounts]
            omega
        | nil =>
            cases h3 : env.createIssue (MapWorkItemToIssue m wi) with
            | error e =>
                simp [processOneItem, processWorkItem, h1, h2, h3, recordFailure,
                  recordMapping, sumCounts]
                omega
            | ok issueNumber =>
                simp [processOneItem, processWorkItem, h1, h2, h3, recordSuccess,
                  recordMapping, sumCounts]
                omega

/-- Batch processing adds the batch length to the outcome total. -/
theorem processBatch_sum (env : Env) (m : Mapper) (cfg : MigrationConfig) :
    ∀ (items : List WorkItem) (st : EngineState),
      sumCounts (processBatch env m cfg st items).1 = sumCounts st + items.length ∧
      (processBatch env m cfg st items).1.report.totalWorkItems = st.report.totalWorkItems := by
  intro items
  induction items with
  | nil => intro st; simp [processBatch]
  | cons wi rest ih =>
      intro st
      obtain ⟨h1, h2⟩ := processOneItem_sum env m cfg st wi
      obtain ⟨h3, h4⟩ := ih (processOneItem env m cfg st wi).1
      simp only [processBatch, List.length_cons]
      constructor
      · rw [h3, h1]; omega
      · rw [h4, h2]

/-- The batch loop preserves the counter discipline across all batches. -/
theorem processBatches_sum (env : Env) (m : Mapper) (cfg : MigrationConfig)
    (bs : Nat) (hbs : 0 < bs) :
    ∀ (n : Nat) (items : List WorkItem), items.length ≤ n → ∀ st : EngineState,
      sumCounts (processBatches env m cfg bs hbs st items).1 = sumCounts st + items.length ∧
      (processBatches env m cfg bs hbs st items).1.report.totalWorkItems
        = st.report.totalWorkItems := by
  intro n
  induction n with
  | zero =>
      intro items hlen st
      have : items = [] := List.eq_nil_of_length_eq_zero (Nat.le_zero.mp hlen)
      subst this
      simp [processBatches]
  | succ n ih =>
      intro items hlen st
      by_cases hnil : items = []
      · subst hnil; simp [processBatches]
      · rw [processBatches]
        simp only [hnil, dite_false]
        have hsplit : (items.take bs).length + (items.drop bs).length = items.length := by
          simp only [List.length_take, List.length_drop]
          omega
        have hpos : 0 < items.length := List.length_pos.mpr hnil
        have hdrop : (items.drop bs).length ≤ n := by
          simp only [List.length_drop]
          omega
        obtain ⟨hb1, hb2⟩ := processBatch_sum env m cfg (items.take bs) st
        obtain ⟨hi1, hi2⟩ :=
          ih (items.drop bs) hdrop (processBatch env m cfg st (items.take bs)).1
        constructor
        · simp only [sumCounts] at *
          omega
        · rw [hi2, hb2]

/-- A dry run increments exactly one of success/failed per item and leaves
the total untouched. -/
theorem performDryRun_sum (env : Env) (m : Mapper) :
    ∀ (items : List WorkItem) (st : EngineState),
      sumCounts (performDryRun env m st items).1 = sumCounts st + items.length ∧
      (performDryRun env m st items).1.report.totalWorkItems = st.report.totalWorkItems := by
  intro items
  induction items with
  | nil => intro st; simp [performDryRun, sumCounts]
  | cons wi rest ih =>
      intro st
      cases hv : env.validateLabels (MapWorkItemToIssue m wi).labels with
      | error e =>
          obtain ⟨h1, h2⟩ := ih
            { st with report := { st.report with failedCount := st.report.failedCount + 1 } }
          simp only [performDryRun, hv, List.length_cons]
          refine ⟨?_, by rw [h2]⟩
          rw [h1]
          simp [sumCounts]
          omega
      | ok u =>
          obtain ⟨h1, h2⟩ := ih
            { st with report := { st.report with
                                  successfulCount := st.report.successfulCount + 1 } }
          simp only [performDryRun, hv, List.length_cons]
          refine ⟨?_, by rw [h2]⟩
          rw [h1]
          simp [sumCounts]
          omega

/-- The report a run starts from is the fresh one, whatever the resume flag
and checkpoint-load outcome. -/
theorem startState_report (env : Env) (cfg : MigrationConfig) :
    (startState env cfg).report = { startTime := env.now } := by
  unfold startState initialState
  by_cases hr : cfg.resumeFromCheckpoint
  · simp only [hr, if_true]
    cases env.loadCheckpoint <;> rfl
  · simp [hr]

/-- `true` iff the collaborator call succeeded. -/
def exceptOkBool {ε α : Type} : Except ε α → Bool
  | .ok _ => true
  | .error _ => false

/-- Dry-run frame and counting: the checkpoint is untouched, the only events
are label validations, failures count the item as failed and everything else
as successful. -/
theorem performDryRun_frame (env : Env) (m : Mapper) :
    ∀ (items : List WorkItem) (st : EngineState),
      (performDryRun env m st items).1.checkpoint = st.checkpoint ∧
      ((performDryRun env m st items).2.all fun ev =>
        match ev with | .validateLabels _ => true | _ => false) = true ∧
      (performDryRun env m st items).1.report.successfulCount
        = st.report.successfulCount + items.countP
            (fun wi => exceptOkBool (env.validateLabels (MapWorkItemToIssue m wi).labels)) ∧
      (performDryRun env m st items).1.report.failedCount
        = st.report.failedCount + items.countP
            (fun wi => !exceptOkBool (env.validateLabels (MapWorkItemToIssue m wi).labels)) ∧
      (performDryRun env m st items).1.report.skippedCount = st.report.skippedCount := by
  intro items
  induction items with
  | nil => intro st; simp [performDryRun]
  | cons wi rest ih =>
      intro st
      cases hv : env.validateLabels (MapWorkItemToIssue m wi).labels with
      | error e =>
          obtain ⟨i1, i2, i3, i4, i5⟩ := ih
            { st with report := { st.report with failedCount := st.report.failedCount + 1 } }
          simp only [performDryRun, hv, List.countP_cons, List.all_cons]
          refine ⟨i1, by simpa using i2, ?_, ?_, i5⟩
          · rw [i3]; simp [hv, exceptOkBool]
          · rw [i4]; simp [hv, exceptOkBool]; omega
      | ok u =>
          obtain ⟨i1, i2, i3, i4, i5⟩ := ih
            { st with report := { st.report with
                                  successfulCount := st.report.successfulCount + 1 } }
          simp only [performDryRun, hv, List.countP_cons, List.all_cons]
          refine ⟨i1, by simpa using i2, ?_, ?_, i5⟩
          · rw [i3]; simp [hv, exceptOkBool]; omega
          · rw [i4]; simp [hv, exceptOkBool]

/-! ## Concrete engine fixtures -/

/-- A live configuration: batch size 10, comments off. -/
def cfgLive : MigrationConfig :=
  { batchSize := 10, dryRun := false, includeComments := false,
    resumeFromCheckpoint := false }

/-- The live configuration with comment migration enabled. -/
def cfgComments : MigrationConfig := { cfgLive with includeComments := true }

/-- The dry-run configuration. -/
def cfgDry : MigrationConfig := { cfgLive with dryRun := true }

/-- An environment in which every collaborator call succeeds: no existing
duplicates, created issues get number 55, no comments, label validation
passes. -/
def envOkBase : Env :=
  { testSourceConnection := .ok ()
    testSinkConnection := .ok ()
    loadCheckpoint := .error "no checkpoint file"
    fetchItems := .ok []
    searchIssues := fun _ => .ok []
    createIssue := fun _ => .ok 55
    getComments := fun _ => .ok []
    createComment := fun _ _ => .ok ()
    updateIssueState := fun _ _ => .ok ()
    validateLabels := fun _ => .ok ()
    now := 5 }

/-- Work item 101 (no fields). -/
def wi101 : WorkItem := { id := 101, url := "http://ado/101", rev := 1, fields := [] }

/-- Work item 102 (no fields). -/
def wi102 : WorkItem := { id := 102, url := "http://ado/102", rev := 1, fields := [] }

/-- A fresh engine state at tick 5. -/
def stFresh : EngineState := initialState 5

/-- The fresh state with a checkpoint that already records item 101 as
processed. -/
def stCk : EngineState :=
  { stFresh with checkpoint := { stFresh.checkpoint with processedItems := [101] } }

/-- A work item whose mapped labels contain `"invalid"`. -/
def wiBadLabel : WorkItem :=
  { id := 103, url := "http://ado/103", rev := 1
    fields := [("System.Tags", .str "invalid")] }

/-- An environment whose label validation rejects exactly label lists
containing `"invalid"`. -/
def envLabelCheck : Env :=
  { envOkBase with
    fetchItems := .ok [wi101, wiBadLabel, wi102]
    validateLabels := fun labels =>
      if labels.contains "invalid" then .error "no such label" else .ok () }

/-! ## Claims about the engine -/

/-- C2: every completed run (dry or live) ends with
successful + failed + skipped = total fetched items, and each processed item
increments exactly one of the three counters while never touching the total,
so the sum never exceeds the total during processing. -/
theorem run_counters_partition_total (env : Env) (m : Mapper) (cfg : MigrationConfig)
    (res : EngineState × List Event) (h : run env m cfg = .ok res) :
    res.1.report.successfulCount + res.1.report.failedCount + res.1.report.skippedCount
      = res.1.report.totalWorkItems ∧
    (∀ items : List WorkItem, env.fetchItems = .ok items →
      res.1.report.totalWorkItems = items.length) ∧
    ∀ (st : EngineState) (wi : WorkItem),
      sumCounts (processOneItem env m cfg st wi).1 = sumCounts st + 1 ∧
      (processOneItem env m cfg st wi).1.report.totalWorkItems
        = st.report.totalWorkItems := by
  have hkey : res.1.report.successfulCount + res.1.report.failedCount +
      res.1.report.skippedCount = res.1.report.totalWorkItems ∧
      ∀ items : List WorkItem, env.fetchItems = .ok items →
        res.1.report.totalWorkItems = items.length := by
    cases ht : testConnections env with
    | error e => simp [run, ht] at h
    | ok u =>
      cases hf : env.fetchItems with
      | error e => simp [run, ht, hf] at h
      | ok items =>
        simp only [run, ht, hf] at h
        have hrep := startState_report env cfg
        cases hd : cfg.dryRun with
        | true =>
          simp only [hd, if_true, Except.ok.injEq] at h
          subst h
          obtain ⟨hs, htot⟩ := performDryRun_sum env m items
            { startState env cfg with
              report := { (startState env cfg).report with totalWorkItems := items.length } }
          refine ⟨?_, fun items' hfi => ?_⟩
          · simp only [sumCounts, hrep] at hs htot ⊢
            simp at hs htot
            omega
          · obtain rfl : items = items' := Except.ok.inj hfi
            simp only [hrep] at htot ⊢
            simpa using htot
        | false =>
          simp only [hd, Bool.false_eq_true, if_false, Except.ok.injEq] at h
          subst h
          obtain ⟨hs, htot⟩ := processBatches_sum env m cfg (effBatchSize cfg)
            (effBatchSize_pos cfg) items.length items (Nat.le_refl _)
            { startState env cfg with
              report := { (startState env cfg).report with totalWorkItems := items.length } }
          refine ⟨?_, fun items' hfi => ?_⟩
          · simp only [performMigration, sumCounts, hrep] at hs htot ⊢
            simp at hs htot ⊢
            omega
          · obtain rfl : items = items' := Except.ok.inj hfi
            simp only [performMigration, hrep] at htot ⊢
            simpa using htot
  exact ⟨hkey.1, hkey.2, fun st wi => processOneItem_sum env m cfg st wi⟩

/-- Witness for C2: a dry run over two fetched items completes with
successful + failed + skipped = total. -/
theorem run_counters_partition_total_witness :
    (match run { envOkBase with fetchItems := .ok [wi101, wi102] } mEmpty cfgDry with
      | .ok r => r
      | .error _ => (initialState 0, [])).1.report.successfulCount +
    (match run { envOkBase with fetchItems := .ok [wi101, wi102] } mEmpty cfgDry with
      | .ok r => r
      | .error _ => (initialState 0, [])).1.report.failedCount +
    (match run { envOkBase with fetchItems := .ok [wi101, wi102] } mEmpty cfgDry with
      | .ok r => r
      | .error _ => (initialState 0, [])).1.report.skippedCount =
    (match run { envOkBase with fetchItems := .ok [wi101, wi102] } mEmpty cfgDry with
      | .ok r => r
      | .error _ => (initialState 0, [])).1.report.totalWorkItems :=
  (run_counters_partition_total { envOkBase with fetchItems := .ok [wi101, wi102] }
    mEmpty cfgDry _ rfl).1

/-- C4: a dry run only maps items and validates their labels — the
checkpoint is left untouched, no creation/comment/state-update calls and no
checkpoint persistence happen, failed validations count as failed and the
rest as successful; in particular 3 items with one validation failure give
successful = 2, failed = 1. -/
theorem dryRun_validates_only (env : Env) (m : Mapper) (items : List WorkItem)
    (st : EngineState) :
    (performDryRun env m st items).1.checkpoint = st.checkpoint ∧
    ((performDryRun env m st items).2.all fun ev =>
      match ev with | .validateLabels _ => true | _ => false) = true ∧
    (performDryRun env m st items).1.report.successfulCount
      = st.report.successfulCount + items.countP
          (fun wi => exceptOkBool (env.validateLabels (MapWorkItemToIssue m wi).labels)) ∧
    (performDryRun env m st items).1.report.failedCount
      = st.report.failedCount + items.countP
          (fun wi => !exceptOkBool (env.validateLabels (MapWorkItemToIssue m wi).labels)) ∧
    (performDryRun env m st items).1.report.skippedCount = st.report.skippedCount ∧
    (performDryRun envLabelCheck mEmpty stFresh
        [wi101, wiBadLabel, wi102]).1.report.successfulCount = 2 ∧
    (performDryRun envLabelCheck mEmpty stFresh
        [wi101, wiBadLabel, wi102]).1.report.failedCount = 1 := by
  obtain ⟨h1, h2, h3, h4, h5⟩ := performDryRun_frame env m items st
  exact ⟨h1, h2, h3, h4, h5, by decide, by decide⟩

/-- C1: an item whose ID is in the checkpoint's processed set is counted as
skipped and processed with no remote call at all — the state change is
exactly the skipped-counter increment and the event trace is empty. -/
theorem checkpoint_skip_no_remote_calls (env : Env) (m : Mapper) (cfg : MigrationConfig)
    (st : EngineState) (wi : WorkItem)
    (h : isAlreadyProcessed st.checkpoint wi.id = true) :
    processWorkItem env m cfg st wi =
      ({ st with report := { st.report with skippedCount := st.report.skippedCount + 1 } },
       [], .ok ()) := by
  simp [processWorkItem, h]

/-- Witness for C1 (the spec's resume scenario): with processed set `{101}`
and fetched items `{101, 102}`, item 101 is skipped with zero calls and only
item 102 produces sink calls. -/
theorem checkpoint_skip_no_remote_calls_witness :
    processWorkItem envOkBase mEmpty cfgLive stCk wi101 =
      ({ stCk with report := { stCk.report with
                               skippedCount := stCk.report.skippedCount + 1 } },
       [], .ok ()) ∧
    (processBatch envOkBase mEmpty cfgLive stCk [wi101, wi102]).2 =
      [.search 102, .create (MapWorkItemToIssue mEmpty wi102)] :=
  ⟨checkpoint_skip_no_remote_calls envOkBase mEmpty cfgLive stCk wi101 (by decide),
   by decide⟩

/-- An environment in which issue creation always fails. -/
def envCreateFail : Env := { envOkBase with createIssue := fun _ => .error "boom" }

/-- C3: a failed creation call records exactly that item as failed — failed
counter +1, ID appended to the checkpoint's failed set, an error string
appended to the report, a `failed` mapping with target ID 0 and the error
text — and the batch continues with the remaining items. -/
theorem create_failure_isolated (env : Env) (m : Mapper) (cfg : MigrationConfig)
    (st : EngineState) (wi : WorkItem) (rest : List WorkItem) (e : String)
    (h1 : isAlreadyProcessed st.checkpoint wi.id = false)
    (h2 : env.searchIssues wi.id = .ok [])
    (h3 : env.createIssue (MapWorkItemToIssue m wi) = .error e) :
    processBatch env m cfg st (wi :: rest) =
      ((processBatch env m cfg
          (recordFailure st env.now wi.id ("failed to create GitHub issue: " ++ e))
          rest).1,
       [.search wi.id, .create (MapWorkItemToIssue m wi)] ++
         (processBatch env m cfg
           (recordFailure st env.now wi.id ("failed to create GitHub issue: " ++ e))
           rest).2) ∧
    recordFailure st env.now wi.id ("failed to create GitHub issue: " ++ e) =
      { report :=
          { st.report with
            failedCount := st.report.failedCount + 1
            errors := st.report.errors ++
              ["Work Item " ++ toString wi.id ++ ": " ++
                ("failed to create GitHub issue: " ++ e)]
            mappings := st.report.mappings ++
              [{ adoWorkItemID := wi.id, gitHubIssueID := 0, migratedAt := env.now,
                 status := "failed",
                 errorMessage := "failed to create GitHub issue: " ++ e }] }
        checkpoint :=
          { st.checkpoint with
            failedItems := st.checkpoint.failedItems ++ [wi.id]
            mappings := st.checkpoint.mappings ++
              [{ adoWorkItemID := wi.id, gitHubIssueID := 0, migratedAt := env.now,
                 status := "failed",
                 errorMessage := "failed to create GitHub issue: " ++ e }] } } := by
  constructor
  · simp [processBatch, processOneItem, processWorkItem, h1, h2, h3]
  · simp [recordFailure, recordMapping]

/-- Witness for C3: with a sink whose creation always fails, item 101 is
recorded as failed and item 102 is still processed afterwards. -/
theorem create_failure_isolated_witness :
    (processBatch envCreateFail mEmpty cfgLive stFresh [wi101, wi102] =
      ((processBatch envCreateFail mEmpty cfgLive
          (recordFailure stFresh envCreateFail.now wi101.id
            ("failed to create GitHub issue: " ++ "boom"))
          [wi102]).1,
       [.search wi101.id, .create (MapWorkItemToIssue mEmpty wi101)] ++
         (processBatch envCreateFail mEmpty cfgLive
           (recordFailure stFresh envCreateFail.now wi101.id
             ("failed to create GitHub issue: " ++ "boom"))
           [wi102]).2) ∧
      recordFailure stFresh envCreateFail.now wi101.id
          ("failed to create GitHub issue: " ++ "boom") =
        { report :=
            { stFresh.report with
              failedCount := stFresh.report.failedCount + 1
              errors := stFresh.report.errors ++
                ["Work Item " ++ toString wi101.id ++ ": " ++
                  ("failed to create GitHub issue: " ++ "boom")]
              mappings := stFresh.report.mappings ++
                [{ adoWorkItemID := wi101.id, gitHubIssueID := 0,
                   migratedAt := envCreateFail.now, status := "failed",
                   errorMessage := "failed to create GitHub issue: " ++ "boom" }] }
          checkpoint :=
            { stFresh.checkpoint with
              failedItems := stFresh.checkpoint.failedItems ++ [wi101.id]
              mappings := stFresh.checkpoint.mappings ++
                [{ adoWorkItemID := wi101.id, gitHubIssueID := 0,
                   migratedAt := envCreateFail.now, status := "failed",
                   errorMessage := "failed to create GitHub issue: " ++ "boom" }] } }) ∧
    (processBatch envCreateFail mEmpty cfgLive stFresh [wi101, wi102]).1.report.failedCount
      = 2 :=
  ⟨create_failure_isolated envCreateFail mEmpty cfgLive stFresh wi101 [wi102] "boom"
    (by decide) rfl rfl, by decide⟩

/-- A comment on the source side. -/
def cmt1 : WorkItemComment :=
  { id := 1, text := "hello"
    createdBy := { id := "u1", displayName := "Ann", email := "ann@x", uniqueName := "ann" }
    createdDate := 3 }

/-- An environment in which the created issue has a source comment but every
comment-creation call fails. -/
def envCommentFail : Env :=
  { envOkBase with
    getComments := fun _ => .ok [cmt1]
    createComment := fun _ _ => .error "comment creation failed" }

/-- C8: once creation succeeded, the item's outcome is `success` no matter
what the comment-migration or issue-close calls do — the returned error is
`ok`, the success counter increments, the ID joins the processed set, and the
recorded mapping has status `success` with an empty error field. -/
theorem post_success_best_effort (env : Env) (m : Mapper) (cfg : MigrationConfig)
    (st : EngineState) (wi : WorkItem) (issueNumber : Nat)
    (h1 : isAlreadyProcessed st.checkpoint wi.id = false)
    (h2 : env.searchIssues wi.id = .ok [])
    (h3 : env.createIssue (MapWorkItemToIssue m wi) = .ok issueNumber) :
    (processWorkItem env m cfg st wi).2.2 = .ok () ∧
    (processWorkItem env m cfg st wi).1 =
      (let st1 := recordSuccess st env.now wi.id issueNumber
       { st1 with checkpoint := { st1.checkpoint with
                                  lastProcessedID := wi.id
                                  lastUpdate := env.now } }) ∧
    (processWorkItem env m cfg st wi).1.report.successfulCount
      = st.report.successfulCount + 1 ∧
    (processWorkItem env m cfg st wi).1.report.failedCount = st.report.failedCount ∧
    (processWorkItem env m cfg st wi).1.checkpoint.processedItems
      = st.checkpoint.processedItems ++ [wi.id] ∧
    (processWorkItem env m cfg st wi).1.report.mappings
      = st.report.mappings ++
        [{ adoWorkItemID := wi.id, gitHubIssueID := issueNumber, migratedAt := env.now,
           status := "success", errorMessage := "" }] := by
  refine ⟨?_, ?_, ?_, ?_, ?_, ?_⟩ <;>
    simp [processWorkItem, h1, h2, h3, recordSuccess, recordMapping]

/-- Witness for C8 (the spec's comment-failure scenario): creation succeeds,
comment migration is enabled and fails, yet the item is recorded as a success
with an empty mapping error. -/
theorem post_success_best_effort_witness :
    (processWorkItem envCommentFail mEmpty cfgComments stFresh wi101).2.2 = .ok () ∧
    (processWorkItem envCommentFail mEmpty cfgComments stFresh wi101).1 =
      (let st1 := recordSuccess stFresh envCommentFail.now wi101.id 55
       { st1 with checkpoint := { st1.checkpoint with
                                  lastProcessedID := wi101.id
                                  lastUpdate := envCommentFail.now } }) ∧
    (processWorkItem envCommentFail mEmpty cfgComments stFresh wi101).1.report.successfulCount
      = stFresh.report.successfulCount + 1 ∧
    (processWorkItem envCommentFail mEmpty cfgComments stFresh wi101).1.report.failedCount
      = stFresh.report.failedCount ∧
    (processWorkItem envCommentFail mEmpty cfgComments stFresh wi101).1.checkpoint.processedItems
      = stFresh.checkpoint.processedItems ++ [wi101.id] ∧
    (processWorkItem envCommentFail mEmpty cfgComments stFresh wi101).1.report.mappings
      = stFresh.report.mappings ++
        [{ adoWorkItemID := wi101.id, gitHubIssueID := 55,
           migratedAt := envCommentFail.now, status := "success", errorMessage := "" }] :=
  post_success_best_effort envCommentFail mEmpty cfgComments stFresh wi101 55
    (by decide) rfl rfl

/-- Counterexample to C9: item 101 is processed (the skipped counter
increments) because its ID is in the checkpoint's processed set, yet no
MigrationMapping is recorded in either the report or the checkpoint — the
claim's "including items skipped via the checkpoint" clause fails. -/
theorem mapping_per_item_counterexample :
    (processOneItem envOkBase mEmpty cfgLive stCk wi101).1.report.skippedCount
      = stCk.report.skippedCount + 1 ∧
    (processOneItem envOkBase mEmpty cfgLive stCk wi101).1.report.mappings = [] ∧
    (processOneItem envOkBase mEmpty cfgLive stCk wi101).1.checkpoint.mappings = [] := by
  decide

/-- C9 as amended: checkpoint-skipped items record no mapping at all; every
other processed item appends exactly one mapping to both the report and the
checkpoint, carrying the source ID, the clock timestamp, a status among
success/failed/skipped, and target ID 0 whenever the status is `failed`. -/
theorem mapping_per_nonskipped_item (env : Env) (m : Mapper) (cfg : MigrationConfig)
    (st : EngineState) (wi : WorkItem) :
    (isAlreadyProcessed st.checkpoint wi.id = true →
      (processOneItem env m cfg st wi).1.report.mappings = st.report.mappings ∧
      (processOneItem env m cfg st wi).1.checkpoint.mappings = st.checkpoint.mappings) ∧
    (isAlreadyProcessed st.checkpoint wi.id = false →
      ∃ mp : MigrationMapping,
        (processOneItem env m cfg st wi).1.report.mappings
          = st.report.mappings ++ [mp] ∧
        (processOneItem env m cfg st wi).1.checkpoint.mappings
          = st.checkpoint.mappings ++ [mp] ∧
        mp.adoWorkItemID = wi.id ∧
        mp.migratedAt = env.now ∧
        (mp.status = "success" ∨ mp.status = "failed" ∨ mp.status = "skipped") ∧
        (mp.status = "failed" → mp.gitHubIssueID = 0)) := by
  constructor
  · intro h
    constructor <;> simp [processOneItem, processWorkItem, h]
  · intro h
    cases h2 : env.searchIssues wi.id with
    | error e =>
        refine ⟨{ adoWorkItemID := wi.id, gitHubIssueID := 0, migratedAt := env.now,
                  status := "failed",
                  errorMessage := "failed to search for existing issues: " ++ e },
                ?_, ?_, rfl, rfl, Or.inr (Or.inl rfl), fun _ => rfl⟩ <;>
          simp [processOneItem, processWorkItem, h, h2, recordFailure, recordMapping]
    | ok existing =>
      cases existing with
      | cons n ns =>
          refine ⟨{ adoWorkItemID := wi.id, gitHubIssueID := n, migratedAt := env.now,
                    status := "skipped", errorMessage := "Issue already exists" },
                  ?_, ?_, rfl, rfl, Or.inr (Or.inr rfl), fun hc => by simp at hc⟩ <;>
            simp [processOneItem, processWorkItem, h, h2, recordMapping]
      | nil =>
        cases h3 : env.createIssue (MapWorkItemToIssue m wi) with
        | error e =>
            refine ⟨{ adoWorkItemID := wi.id, gitHubIssueID := 0, migratedAt := env.now,
                      status := "failed",
                      errorMessage := "failed to create GitHub issue: " ++ e },
                    ?_, ?_, rfl, rfl, Or.inr (Or.inl rfl), fun _ => rfl⟩ <;>
              simp [processOneItem, processWorkItem, h, h2, h3, recordFailure, recordMapping]
        | ok issueNumber =>
            refine ⟨{ adoWorkItemID := wi.id, gitHubIssueID := issueNumber,
                      migratedAt := env.now, status := "success", errorMessage := "" },
                    ?_, ?_, rfl, rfl, Or.inl rfl, fun hc => by simp at hc⟩ <;>
              simp [processOneItem, processWorkItem, h, h2, h3, recordSuccess, recordMapping]

/-- Witness for the amended C9: processing fresh item 101 appends exactly one
mapping to both ledgers. -/
theorem mapping_per_nonskipped_item_witness :
    ∃ mp : MigrationMapping,
      (processOneItem envOkBase mEmpty cfgLive stFresh wi101).1.report.mappings
        = stFresh.report.mappings ++ [mp] ∧
      (processOneItem envOkBase mEmpty cfgLive stFresh wi101).1.checkpoint.mappings
        = stFresh.checkpoint.mappings ++ [mp] ∧
      mp.adoWorkItemID = wi101.id ∧
      mp.migratedAt = envOkBase.now ∧
      (mp.status = "success" ∨ mp.status = "failed" ∨ mp.status = "skipped") ∧
      (mp.status = "failed" → mp.gitHubIssueID = 0) :=
  (mapping_per_nonskipped_item envOkBase mEmpty cfgLive stFresh wi101).2 (by decide)

/-- C10: the checkpoint's last-processed-ID changes only when an item
completes successfully; checkpoint skips, duplicate skips, search failures
and creation failures leave it unchanged (even though the failure paths do
append to the failed-ID set). -/
theorem lastProcessedID_only_on_success (env : Env) (m : Mapper) (cfg : MigrationConfig)
    (st : EngineState) (wi : WorkItem) :
    (isAlreadyProcessed st.checkpoint wi.id = true →
      (processOneItem env m cfg st wi).1.checkpoint.lastProcessedID
        = st.checkpoint.lastProcessedID) ∧
    (∀ e : String, isAlreadyProcessed st.checkpoint wi.id = false →
      env.searchIssues wi.id = .error e →
      (processOneItem env m cfg st wi).1.checkpoint.lastProcessedID
        = st.checkpoint.lastProcessedID ∧
      (processOneItem env m cfg st wi).1.checkpoint.failedItems
        = st.checkpoint.failedItems ++ [wi.id]) ∧
    (∀ (n : Nat) (ns : List Nat), isAlreadyProcessed st.checkpoint wi.id = false →
      env.searchIssues wi.id = .ok (n :: ns) →
      (processOneItem env m cfg st wi).1.checkpoint.lastProcessedID
        = st.checkpoint.lastProcessedID) ∧
    (∀ e : String, isAlreadyProcessed st.checkpoint wi.id = false →
      env.searchIssues wi.id = .ok [] →
      env.createIssue (MapWorkItemToIssue m wi) = .error e →
      (processOneItem env m cfg st wi).1.checkpoint.lastProcessedID
        = st.checkpoint.lastProcessedID ∧
      (processOneItem env m cfg st wi).1.checkpoint.failedItems
        = st.checkpoint.failedItems ++ [wi.id]) ∧
    (∀ n : Nat, isAlreadyProcessed st.checkpoint wi.id = false →
      env.searchIssues wi.id = .ok [] →
      env.createIssue (MapWorkItemToIssue m wi) = .ok n →
      (processOneItem env m cfg st wi).1.checkpoint.lastProcessedID = wi.id) := by
  refine ⟨?_, ?_, ?_, ?_, ?_⟩
  · intro h
    simp [processOneItem, processWorkItem, h]
  · intro e h h2
    constructor <;>
      simp [processOneItem, processWorkItem, h, h2, recordFailure, recordMapping]
  · intro n ns h h2
    simp [processOneItem, processWorkItem, h, h2, recordMapping]
  · intro e h h2 h3
    constructor <;>
      simp [processOneItem, processWorkItem, h, h2, h3, recordFailure, recordMapping]
  · intro n h h2 h3
    simp [processOneItem, processWorkItem, h, h2, h3, recordSuccess, recordMapping]

/-- Witness for C10: a checkpoint-skipped item leaves last-processed-ID at
its initial 0, a successfully created item sets it to the item's ID. -/
theorem lastProcessedID_only_on_success_witness :
    (processOneItem envOkBase mEmpty cfgLive stCk wi101).1.checkpoint.lastProcessedID
      = stCk.checkpoint.lastProcessedID ∧
    (processOneItem envOkBase mEmpty cfgLive stFresh wi101).1.checkpoint.lastProcessedID
      = wi101.id :=
  ⟨(lastProcessedID_only_on_success envOkBase mEmpty cfgLive stCk wi101).1 (by decide),
   (lastProcessedID_only_on_success envOkBase mEmpty cfgLive stFresh wi101).2.2.2.2
     55 (by decide) rfl rfl⟩

end Adowi2gh
